import Mathlib

/-!
Verification of the untrusted-code-execution sandbox and scoring engine of
the Prompteer backend.

The development shallowly embeds:

* `app/utils/sandbox/code_runner.py` — `score_code`: the sandboxed process
  launcher.  Its interaction with the operating system (the docker child
  process, the files written inside the temporary workspace, the monotonic
  clock) is abstracted into a `RunEvent` value describing what the
  environment did on one launch; `scoreCode` is the pure function from that
  event to the returned result dictionary, translated branch by branch from
  the Python source.
* `app/routers/challenge.py` — the tail of `score_code_and_create_share`:
  per-test-case verdict classification (`classifyResult`), the batch loop
  (`runBatch`), the `all_accepted` aggregate (`allAccepted`), the prompt
  cache interaction and the creation of the `Share`/`PSShare` records
  (`scoreEndpoint`).  The in-memory prompt cache dictionary is modelled as
  an association list with unique keys; the database session is modelled as
  the list of `(Share, PSShare)` pairs it holds.

Numeric times (Python floats from `time.monotonic`) are modelled as
rationals.  Python `str.strip()` and the regex classes `\s`/`\d` are
modelled over their ASCII ranges, which is what the program text exercises.
-/

/-! ### Python string primitives -/

/-- The whitespace characters of Python's `str.strip()` and of the regex
class `\s`, restricted to ASCII: space, tab, newline, carriage return,
vertical tab (11) and form feed (12). -/
def pyIsSpace (c : Char) : Bool :=
  c = ' ' || c = '\t' || c = '\n' || c = '\r' || c.toNat = 11 || c.toNat = 12

/-- Python `s.strip()`: drop leading and trailing whitespace. -/
def pyStrip (s : String) : String :=
  String.mk (((s.toList.dropWhile pyIsSpace).reverse.dropWhile pyIsSpace).reverse)

/-- Auxiliary for substring search: does `needle` occur as a contiguous
run inside the character list? -/
def containsSubAux (needle : List Char) : List Char → Bool
  | [] => needle.isEmpty
  | c :: rest => needle.isPrefixOf (c :: rest) || containsSubAux needle rest

/-- Python's `needle in haystack` substring test. -/
def containsSub (haystack needle : String) : Bool :=
  containsSubAux needle.toList haystack.toList

/-- Numeric value of a list of ASCII digits, as Python `int()` reads the
group captured by `(\d+)`. -/
def digitsToNat (ds : List Char) : Nat :=
  ds.foldl (fun acc c => acc * 10 + (c.toNat - 48)) 0

/-- The literal part of the pattern
`r"Maximum resident set size \(kbytes\):\s*(\d+)"` used on the
`/usr/bin/time -v` statistics file. -/
def maxRssLabel : String := "Maximum resident set size (kbytes):"

/-- Try to match `\s*(\d+)` right after the literal label at the head of
`cs`.  `\s*` is greedy and `\s` never matches a digit, so skipping all
whitespace and then requiring at least one digit is exactly the regex
behaviour. -/
def matchMaxRssAt (cs : List Char) : Option Nat :=
  if maxRssLabel.toList.isPrefixOf cs then
    let digits := ((cs.drop maxRssLabel.length).dropWhile pyIsSpace).takeWhile Char.isDigit
    if digits.isEmpty then none else some (digitsToNat digits)
  else none

/-- Leftmost-match search, as `re.search` performs it: try the pattern at
each start position in turn. -/
def searchMaxRssAux : List Char → Option Nat
  | [] => none
  | c :: rest =>
    match matchMaxRssAt (c :: rest) with
    | some n => some n
    | none => searchMaxRssAux rest

/-- `re.search(r"Maximum resident set size \(kbytes\):\s*(\d+)", stats)`
followed by `int(match.group(1))`, or `None` when there is no match. -/
def searchMaxRss (s : String) : Option Nat :=
  searchMaxRssAux s.toList

/-! ### The sandboxed process launcher: `score_code` -/

/-- What the environment (docker child process, workspace files, clock) did
on one invocation of `score_code`:

* `completed returncode stdoutFile stderrFile statsFile elapsed` — the
  subprocess finished within the deadline with the given exit code; the
  three workspace files hold the given texts and the monotonic clock
  measured `elapsed` seconds.
* `timedOut elapsed` — `asyncio.wait_for` raised `asyncio.TimeoutError`.
* `fileNotFound sockExists stderrFile elapsed` — a `FileNotFoundError`
  was raised; `sockExists` records whether `/var/run/docker.sock` exists,
  and `stderrFile` the content of `stderr.txt` when that file exists.
* `otherException message elapsed` — any other exception, with `str(e)`
  equal to `message`. -/
inductive RunEvent where
  | completed (returncode : Int) (stdoutFile stderrFile statsFile : String) (elapsed : Rat)
  | timedOut (elapsed : Rat)
  | fileNotFound (sockExists : Bool) (stderrFile : Option String) (elapsed : Rat)
  | otherException (message : String) (elapsed : Rat)
deriving DecidableEq

/-- The dictionary returned by `score_code`: every return statement of the
function produces exactly these six keys. -/
structure RunResult where
  success : Bool
  stdout : String
  stderr : String
  max_memory_kb : Option Nat
  elapsed_time : Rat
  error : Option String
deriving DecidableEq

/-- Message substituted for an empty stderr when the container was killed
by the OOM mechanism (exit code 137). -/
def oomKilledMessage : String := "메모리 제한을 초과하여 프로세스가 종료되었습니다."

/-- The `error` value of the timeout branch. -/
def timeoutLabel : String := "Timeout"

/-- The `error` value of the OOM branch. -/
def memoryLimitExceededLabel : String := "Memory Limit Exceeded"

/-- The `error` value of the syntax/indentation-marker branch. -/
def compilationErrorLabel : String := "Compilation Error"

/-- The `error` value of the remaining nonzero-exit branch. -/
def runtimeErrorLabel : String := "Runtime Error"

/-- Marker looked for in stderr to detect a syntax error. -/
def synErrMarker : String := "SyntaxError:"

/-- Marker looked for in stderr to detect an indentation error. -/
def indentErrMarker : String := "IndentationError:"

/-- stderr text of the timeout branch,
`f"실행 시간이 {timeout_seconds}초를 초과했습니다."` (the rendering of the
number is approximated by `toString`). -/
def timeoutStderrMessage (timeoutSeconds : Rat) : String :=
  "실행 시간이 " ++ toString timeoutSeconds ++ "초를 초과했습니다."

/-- `error` value returned when the docker binary is missing and
`/var/run/docker.sock` does not exist. -/
def dockerNotFoundMessage : String :=
  "Docker 명령어를 찾을 수 없습니다. Docker가 설치되어 있고 실행 중인지 확인하세요."

/-- `error` value of the catch-all `except Exception` branch. -/
def unexpectedErrorMessage : String := "예상치 못한 오류가 발생했습니다."

/-- `score_code` from `app/utils/sandbox/code_runner.py`, as a function of
the time limit and of what the environment did.  The submitted code, the
stdin data and the memory limit influence only the environment's behaviour
(which event occurs), never the shape of the returned dictionary, so they
are absorbed into the `RunEvent`. -/
def scoreCode (timeoutSeconds : Rat) (ev : RunEvent) : RunResult :=
  match ev with
  | RunEvent.completed returncode stdoutFile stderrFile statsFile elapsed =>
    let maxMemoryKb := searchMaxRss statsFile
    if returncode = 0 then
      { success := true, stdout := stdoutFile, stderr := stderrFile,
        max_memory_kb := maxMemoryKb, elapsed_time := elapsed, error := none }
    else if returncode = 137 then
      { success := false, stdout := stdoutFile,
        stderr := if stderrFile = "" then oomKilledMessage else stderrFile,
        max_memory_kb := maxMemoryKb, elapsed_time := elapsed,
        error := some memoryLimitExceededLabel }
    else
      { success := false, stdout := stdoutFile, stderr := stderrFile,
        max_memory_kb := maxMemoryKb, elapsed_time := elapsed,
        error := some (if containsSub stderrFile synErrMarker = true
            ∨ containsSub stderrFile indentErrMarker = true then
          compilationErrorLabel else runtimeErrorLabel) }
  | RunEvent.timedOut elapsed =>
    { success := false, stdout := "", stderr := timeoutStderrMessage timeoutSeconds,
      max_memory_kb := none, elapsed_time := elapsed, error := some timeoutLabel }
  | RunEvent.fileNotFound sockExists stderrFile elapsed =>
    if sockExists = false then
      { success := false, stdout := "", stderr := "", max_memory_kb := none,
        elapsed_time := 0, error := some dockerNotFoundMessage }
    else
      { success := false, stdout := "", stderr := stderrFile.getD "",
        max_memory_kb := none, elapsed_time := elapsed,
        error := some runtimeErrorLabel }
  | RunEvent.otherException message elapsed =>
    { success := false, stdout := "", stderr := message,
      max_memory_kb := none, elapsed_time := elapsed,
      error := some unexpectedErrorMessage }

/-! ### The scoring endpoint: `score_code_and_create_share` -/

/-- The `ScoringStatus` enum of `app/routers/challenge.py`. -/
inductive ScoringStatus where
  | accepted
  | wrongAnswer
  | compilationError
  | runtimeError
  | timeout
  | memoryLimitExceeded
deriving DecidableEq

/-- `ScoringStatus(value)`: the enum member whose string value matches, or
`none` where Python raises `ValueError`. -/
def scoringStatusOfString : String → Option ScoringStatus
  | "Accepted" => some ScoringStatus.accepted
  | "Wrong Answer" => some ScoringStatus.wrongAnswer
  | "Compilation Error" => some ScoringStatus.compilationError
  | "Runtime Error" => some ScoringStatus.runtimeError
  | "Timeout" => some ScoringStatus.timeout
  | "Memory Limit Exceeded" => some ScoringStatus.memoryLimitExceeded
  | _ => none

/-- Python truthiness of the `error` entry: `None` and the empty string are
falsy, every other string is truthy. -/
def errIsTruthy : Option String → Bool
  | none => false
  | some s => if s = "" then false else true

/-- One test case of a PS challenge, with the fields the scoring endpoint
reads (`id`, `input`, `output`, `time_limit`, `mem_limit`). -/
structure Testcase where
  id : Option Nat
  input : Option String
  output : Option String
  time_limit : Rat
  mem_limit : Nat
deriving DecidableEq

/-- One element of the endpoint's response (`ScoringResult` model). -/
structure ScoringResult where
  testcase_id : Nat
  status : ScoringStatus
  stdout : String
  stderr : String
  elapsed_time : Rat
  max_memory_kb : Option Nat
deriving DecidableEq

/-- The per-test-case verdict computation of the loop body in
`score_code_and_create_share`:

    status_val = ScoringStatus.WRONG_ANSWER
    if result["error"]:
        try: status_val = ScoringStatus(result["error"])
        except ValueError: status_val = ScoringStatus.RUNTIME_ERROR
    elif result["success"] and result["stdout"].strip() == (tc.output or "").strip():
        status_val = ScoringStatus.ACCEPTED
-/
def classifyResult (result : RunResult) (expectedOutput : Option String) : ScoringStatus :=
  if errIsTruthy result.error = true then
    match scoringStatusOfString (result.error.getD "") with
    | some s => s
    | none => ScoringStatus.runtimeError
  else if result.success = true ∧ pyStrip result.stdout = pyStrip (expectedOutput.getD "") then
    ScoringStatus.accepted
  else
    ScoringStatus.wrongAnswer

/-- The `ScoringResult` appended for one test case whose execution produced
the event `ev`.  The `tc.id is None` case is handled in `runBatch`; here
the checked id is read with a default. -/
def mkScoringResult (tc : Testcase) (ev : RunEvent) : ScoringResult :=
  let result := scoreCode tc.time_limit ev
  { testcase_id := tc.id.getD 0
    status := classifyResult result tc.output
    stdout := result.stdout
    stderr := result.stderr
    elapsed_time := result.elapsed_time
    max_memory_kb := result.max_memory_kb }

/-- Detail text of the HTTP 500 raised for a test case without an id. -/
def missingIdMessage (tc : Testcase) : String :=
  "Internal server error: Testcase for input " ++ (tc.input.getD "") ++ " is missing an ID."

/-- The verdict-building loop of `score_code_and_create_share`, over the
test cases paired with their execution events.  The pairing models
`zip(testcases, execution_results)`: the tasks are created in test-case
order and `asyncio.gather` returns their results in that same order even
though they complete nondeterministically.  A test case without an id
raises `HTTPException` (modelled as `Except.error`), aborting the whole
response. -/
def runBatch : List (Testcase × RunEvent) → Except String (List ScoringResult)
  | [] => Except.ok []
  | (tc, ev) :: rest =>
    match tc.id with
    | none => Except.error (missingIdMessage tc)
    | some _ =>
      match runBatch rest with
      | Except.error e => Except.error e
      | Except.ok tail => Except.ok (mkScoringResult tc ev :: tail)

/-- The verdict list as a pure map over the batch, for stating order
preservation. -/
def batchVerdicts (pairs : List (Testcase × RunEvent)) : List ScoringResult :=
  pairs.map (fun p => mkScoringResult p.1 p.2)

/-- `all_accepted = all(result.status == ScoringStatus.ACCEPTED for result
in scoring_results)`. -/
def allAccepted (results : List ScoringResult) : Bool :=
  results.all (fun r => decide (r.status = ScoringStatus.accepted))

/-- The fields of the `Share` row created via `ShareCreate` and
`crud_share.create_ps_share`. -/
structure ShareRec where
  challenge_id : Nat
  user_id : Nat
  is_public : Bool
  prompt : Option String
deriving DecidableEq

/-- The fields of the `PSShare` row created via `PSShareCreate`. -/
structure PSShareRec where
  code : String
  is_correct : Bool
deriving DecidableEq

/-- The global `prompt_cache_for_ps_challenge` dictionary,
`(user_id, challenge_id) → prompt`, as an association list with unique
keys. -/
def PromptCache : Type := List ((Nat × Nat) × String)

/-- `dict.pop(key, None)`: the removed value (or `none`) and the remaining
dictionary. -/
def cachePop (cache : PromptCache) (key : Nat × Nat) : Option String × PromptCache :=
  match List.lookup key cache with
  | some v => (some v, List.filter (fun e => !(e.1 = key : Bool)) cache)
  | none => (none, cache)

/-- Observable outcome of one successful call of the scoring endpoint:
the response body, the shares table after `create_ps_share`, and the
prompt cache after the call. -/
structure ScoreEffects where
  results : List ScoringResult
  shares : List (ShareRec × PSShareRec)
  cache : PromptCache

/-- The tail of `score_code_and_create_share` (after the challenge lookup
and authentication guards): build the verdicts, compute `all_accepted`,
pop the cached prompt only on full acceptance, and create exactly one
`Share` with one attached `PSShare`. -/
def scoreEndpoint (userId challengeId : Nat) (code : String)
    (pairs : List (Testcase × RunEvent)) (cache : PromptCache)
    (shares : List (ShareRec × PSShareRec)) : Except String ScoreEffects :=
  match runBatch pairs with
  | Except.error e => Except.error e
  | Except.ok scoringResults =>
    let allAcc := allAccepted scoringResults
    let popped := if allAcc = true then cachePop cache (userId, challengeId) else (none, cache)
    let share : ShareRec :=
      { challenge_id := challengeId, user_id := userId, is_public := allAcc, prompt := popped.1 }
    let psShare : PSShareRec := { code := code, is_correct := allAcc }
    Except.ok { results := scoringResults, shares := shares ++ [(share, psShare)], cache := popped.2 }

/-- The infrastructure faults named by the spec: the container runtime
cannot be invoked (a `FileNotFoundError` with no docker socket present), or
an unexpected exception during the launch. -/
def isInfraFault : RunEvent → Bool
  | RunEvent.fileNotFound false _ _ => true
  | RunEvent.otherException _ _ => true
  | _ => false

/-- A sample `/usr/bin/time -v` statistics text containing the labelled
peak-memory line. -/
def demoStatsText : String :=
  "\tUser time (seconds): 0.01\n\tMaximum resident set size (kbytes): 1234\n\tExit status: 0\n"

/-- A sample statistics text without the labelled peak-memory line. -/
def demoStatsNoLine : String := "\tUser time (seconds): 0.01\n\tExit status: 0\n"

/-- Concrete test case used by witnesses. -/
def demoTcA : Testcase :=
  { id := some 1, input := some "1", output := some "1", time_limit := 2, mem_limit := 128 }

/-- Second concrete test case used by witnesses. -/
def demoTcB : Testcase :=
  { id := some 2, input := some "2", output := some "2", time_limit := 2, mem_limit := 128 }

/-- A concrete two-case batch: the first run prints the expected output,
the second a wrong one. -/
def demoPairs : List (Testcase × RunEvent) :=
  [(demoTcA, RunEvent.completed 0 "1\n" "" demoStatsText 1),
   (demoTcB, RunEvent.completed 0 "3\n" "" demoStatsText 1)]

/-- A concrete one-case batch whose single execution hits the
missing-docker-binary infrastructure fault. -/
def faultPairs : List (Testcase × RunEvent) :=
  [(demoTcA, RunEvent.fileNotFound false none 0)]

/-- A concrete prompt cache holding one entry for user 1, challenge 2. -/
def demoCache : PromptCache := [((1, 2), "reverse the string")]

/-- The effects of the scoring endpoint on an empty batch for user 1,
challenge 2, submitted code `"c"`, over `demoCache` and an empty shares
table. -/
def demoEffects : ScoreEffects :=
  { results := []
    shares := [({ challenge_id := 2, user_id := 1, is_public := true,
                  prompt := some "reverse the string" },
                { code := "c", is_correct := true })]
    cache := [] }

/-! ### Helper lemmas -/

lemma containsSubAux_of_isPrefixOf (needle l : List Char) (h : needle.isPrefixOf l = true) :
    containsSubAux needle l = true := by
  cases l with
  | nil =>
    cases needle with
    | nil => rfl
    | cons a as => simp [List.isPrefixOf] at h
  | cons c rest => simp [containsSubAux, h]

lemma containsSubAux_append_left (needle pre rest : List Char)
    (h : containsSubAux needle rest = true) :
    containsSubAux needle (pre ++ rest) = true := by
  induction pre with
  | nil => simpa using h
  | cons c cs ih => simp [containsSubAux, ih]

/-- A needle standing literally between two other pieces of a string is
found by the substring test. -/
lemma containsSub_middle (pre needle post : String) :
    containsSub (pre ++ needle ++ post) needle = true := by
  unfold containsSub
  have htl : (pre ++ needle ++ post).toList = pre.toList ++ (needle.toList ++ post.toList) := by
    simp [String.toList]
  rw [htl]
  refine containsSubAux_append_left _ _ _ ?_
  refine containsSubAux_of_isPrefixOf _ _ ?_
  rw [List.isPrefixOf_iff_prefix]
  exact List.prefix_append _ _

lemma classify_timedOut (limit elapsed : Rat) (expected : Option String) :
    classifyResult (scoreCode limit (RunEvent.timedOut elapsed)) expected = ScoringStatus.timeout := by
  rfl

lemma classify_oom (limit : Rat) (out err stats : String) (elapsed : Rat) (expected : Option String) :
    classifyResult (scoreCode limit (RunEvent.completed 137 out err stats elapsed)) expected
      = ScoringStatus.memoryLimitExceeded := by
  simp only [scoreCode]
  norm_num
  rfl

lemma classify_exit_zero (limit : Rat) (out err stats : String) (elapsed : Rat)
    (expected : Option String) :
    classifyResult (scoreCode limit (RunEvent.completed 0 out err stats elapsed)) expected
      = (if pyStrip out = pyStrip (expected.getD "") then ScoringStatus.accepted
          else ScoringStatus.wrongAnswer) := by
  simp only [scoreCode]
  norm_num
  by_cases h : pyStrip out = pyStrip (expected.getD "")
  · simp [classifyResult, errIsTruthy, h]
  · simp [classifyResult, errIsTruthy, h]

lemma classify_exit_other (limit : Rat) (rc : Int) (out err stats : String) (elapsed : Rat)
    (expected : Option String) (h0 : rc ≠ 0) (h137 : rc ≠ 137) :
    classifyResult (scoreCode limit (RunEvent.completed rc out err stats elapsed)) expected
      = (if containsSub err synErrMarker = true ∨ containsSub err indentErrMarker = true
          then ScoringStatus.compilationError else ScoringStatus.runtimeError) := by
  simp only [scoreCode, if_neg h0, if_neg h137]
  by_cases h : containsSub err synErrMarker = true ∨ containsSub err indentErrMarker = true
  · simp only [if_pos h]; rfl
  · simp only [if_neg h]; rfl

/-! ### Claim theorems (first batch) -/

/-- C2.  Verdict classification follows the spec's decision order: a timed
out execution is a Timeout; exit code 137 is Memory Limit Exceeded; exit
code 0 with trimmed stdout equal to trimmed expected output is Accepted;
exit code 0 with a mismatch is Wrong Answer; any other exit code is a
Compilation Error when stderr contains a syntax/indentation marker and a
Runtime Error otherwise. -/
theorem claim2_classification_decision_order (limit : Rat) (expected : Option String) :
    (∀ elapsed : Rat,
      classifyResult (scoreCode limit (RunEvent.timedOut elapsed)) expected = ScoringStatus.timeout)
  ∧ (∀ (out err stats : String) (elapsed : Rat),
      classifyResult (scoreCode limit (RunEvent.completed 137 out err stats elapsed)) expected
        = ScoringStatus.memoryLimitExceeded)
  ∧ (∀ (out err stats : String) (elapsed : Rat), pyStrip out = pyStrip (expected.getD "") →
      classifyResult (scoreCode limit (RunEvent.completed 0 out err stats elapsed)) expected
        = ScoringStatus.accepted)
  ∧ (∀ (out err stats : String) (elapsed : Rat), pyStrip out ≠ pyStrip (expected.getD "") →
      classifyResult (scoreCode limit (RunEvent.completed 0 out err stats elapsed)) expected
        = ScoringStatus.wrongAnswer)
  ∧ (∀ (rc : Int) (out err stats : String) (elapsed : Rat), rc ≠ 0 → rc ≠ 137 →
      classifyResult (scoreCode limit (RunEvent.completed rc out err stats elapsed)) expected
        = (if containsSub err synErrMarker = true
              ∨ containsSub err indentErrMarker = true
            then ScoringStatus.compilationError else ScoringStatus.runtimeError)) := by
  refine ⟨fun e => classify_timedOut limit e expected,
    fun out err stats e => classify_oom limit out err stats e expected,
    fun out err stats e h => ?_, fun out err stats e h => ?_,
    fun rc out err stats e h0 h137 => classify_exit_other limit rc out err stats e expected h0 h137⟩
  · rw [classify_exit_zero, if_pos h]
  · rw [classify_exit_zero, if_neg h]

/-- Witness for C2: each branch of the decision order evaluated at a
concrete execution. -/
theorem claim2_witness :
    classifyResult (scoreCode 2 (RunEvent.timedOut 3)) (some "42") = ScoringStatus.timeout
  ∧ classifyResult (scoreCode 2 (RunEvent.completed 137 "" "" "" 1)) (some "42")
      = ScoringStatus.memoryLimitExceeded
  ∧ classifyResult (scoreCode 2 (RunEvent.completed 0 " 42\n" "" "" 1)) (some "42")
      = ScoringStatus.accepted
  ∧ classifyResult (scoreCode 2 (RunEvent.completed 0 "41" "" "" 1)) (some "42")
      = ScoringStatus.wrongAnswer
  ∧ classifyResult (scoreCode 2 (RunEvent.completed 1 "" "SyntaxError: x" "" 1)) (some "42")
      = ScoringStatus.compilationError := by
  have h := claim2_classification_decision_order 2 (some "42")
  refine ⟨h.1 3, h.2.1 "" "" "" 1, ?_, ?_, ?_⟩
  · exact h.2.2.1 " 42\n" "" "" 1 (by decide)
  · exact h.2.2.2.1 "41" "" "" 1 (by decide)
  · have h5 := h.2.2.2.2 1 "" "SyntaxError: x" "" 1 (by decide) (by decide)
    rw [h5]
    decide

/-- C3.  A completed execution is classified Accepted exactly when the exit
code is 0 and the trimmed stdout equals the trimmed expected output; a
missing expected output is compared as the empty string, by exact match of
the trimmed texts.  (Timed-out, launch-failed and exception outcomes never
classify as Accepted, since their error strings name other statuses.) -/
theorem claim3_accepted_iff (limit : Rat) (rc : Int) (out err stats : String) (elapsed : Rat)
    (expected : Option String) :
    (classifyResult (scoreCode limit (RunEvent.completed rc out err stats elapsed)) expected
        = ScoringStatus.accepted
      ↔ rc = 0 ∧ pyStrip out = pyStrip (expected.getD ""))
  ∧ (∀ ev : RunEvent, (scoreCode limit ev).error ≠ none →
      classifyResult (scoreCode limit ev) expected ≠ ScoringStatus.accepted) := by
  constructor
  · by_cases h0 : rc = 0
    · subst h0
      rw [classify_exit_zero]
      by_cases h : pyStrip out = pyStrip (expected.getD "")
      · simp [h]
      · simp [h]
    · by_cases h137 : rc = 137
      · subst h137
        rw [classify_oom]
        simp [h0]
      · rw [classify_exit_other limit rc out err stats elapsed expected h0 h137]
        by_cases h : containsSub err synErrMarker = true
            ∨ containsSub err indentErrMarker = true
        · simp [h, h0]
        · simp [h, h0]
  · intro ev hev
    cases ev with
    | completed rc2 out2 err2 stats2 e2 =>
      by_cases h0 : rc2 = 0
      · subst h0
        simp [scoreCode] at hev
      · by_cases h137 : rc2 = 137
        · subst h137
          rw [classify_oom]
          decide
        · rw [classify_exit_other limit rc2 out2 err2 stats2 e2 expected h0 h137]
          by_cases h : containsSub err2 synErrMarker = true
              ∨ containsSub err2 indentErrMarker = true
          · simp [h]
          · simp [h]
    | timedOut e2 =>
      rw [classify_timedOut]
      decide
    | fileNotFound sock st e2 =>
      cases sock
      · simp [scoreCode, classifyResult, errIsTruthy, dockerNotFoundMessage, scoringStatusOfString]
      · simp [scoreCode, classifyResult, errIsTruthy, runtimeErrorLabel, scoringStatusOfString]
    | otherException m e2 =>
      simp [scoreCode, classifyResult, errIsTruthy, unexpectedErrorMessage, scoringStatusOfString]

/-- Witness for C3: a run printing `" 42\n"` against expected `"42"` with
exit code 0 is Accepted, and the missing-expected-output edge case compares
against the empty string. -/
theorem claim3_witness :
    classifyResult (scoreCode 2 (RunEvent.completed 0 " 42\n" "" "" 1)) (some "42")
      = ScoringStatus.accepted
  ∧ classifyResult (scoreCode 2 (RunEvent.completed 0 " \n" "" "" 1)) none
      = ScoringStatus.accepted
  ∧ classifyResult (scoreCode 2 (RunEvent.timedOut 1)) (some "42") ≠ ScoringStatus.accepted := by
  refine ⟨?_, ?_, ?_⟩
  · exact (claim3_accepted_iff 2 0 " 42\n" "" "" 1 (some "42")).1.mpr ⟨rfl, by decide⟩
  · exact (claim3_accepted_iff 2 0 " \n" "" "" 1 none).1.mpr ⟨rfl, by decide⟩
  · exact (claim3_accepted_iff 2 0 "" "" "" 1 (some "42")).2 (RunEvent.timedOut 1) (by decide)

/-- Counterexample for C4: on a timeout the launcher reports the measured
elapsed wall-clock time (here 3 seconds against a 2-second limit), not a
wall time equal to the time limit as the claim states. -/
theorem claim4_counterexample :
    (scoreCode 2 (RunEvent.timedOut 3)).error = some timeoutLabel
  ∧ ¬ (scoreCode 2 (RunEvent.timedOut 3)).elapsed_time = 2 := by
  constructor
  · rfl
  · decide

/-- C4 (amended).  When the external deadline elapses, the launcher returns
a result with error `"Timeout"` (classified as a Timeout verdict), empty
stdout, no peak memory, a stderr message naming the time limit, and
`elapsed_time` equal to the measured wall-clock time at termination — which
is not necessarily the time limit itself. -/
theorem claim4_timeout_result (limit elapsed : Rat) (expected : Option String) :
    (scoreCode limit (RunEvent.timedOut elapsed)).stdout = ""
  ∧ (scoreCode limit (RunEvent.timedOut elapsed)).max_memory_kb = none
  ∧ (scoreCode limit (RunEvent.timedOut elapsed)).error = some timeoutLabel
  ∧ (scoreCode limit (RunEvent.timedOut elapsed)).elapsed_time = elapsed
  ∧ (scoreCode limit (RunEvent.timedOut elapsed)).stderr = timeoutStderrMessage limit
  ∧ containsSub (scoreCode limit (RunEvent.timedOut elapsed)).stderr (toString limit) = true
  ∧ classifyResult (scoreCode limit (RunEvent.timedOut elapsed)) expected
      = ScoringStatus.timeout := by
  refine ⟨rfl, rfl, rfl, rfl, rfl, ?_, classify_timedOut limit elapsed expected⟩
  show containsSub (timeoutStderrMessage limit) (toString limit) = true
  unfold timeoutStderrMessage
  exact containsSub_middle _ _ _

/-- C6.  `all_accepted` is true exactly when every verdict's status is
Accepted; it is vacuously true for an empty verdict list, and false as soon
as one verdict among many is not Accepted. -/
theorem claim6_all_accepted_iff :
    (∀ results : List ScoringResult,
      allAccepted results = true ↔ ∀ r ∈ results, r.status = ScoringStatus.accepted)
  ∧ allAccepted [] = true := by
  constructor
  · intro results
    simp [allAccepted, List.all_eq_true]
  · rfl

/-- C7.  A child killed with the OOM exit code 137 is reported as a memory
limit termination — never a generic runtime error — and when the program
produced no stderr text a synthesized out-of-memory message is substituted;
any stderr the program did produce is kept. -/
theorem claim7_oom_classification (limit : Rat) (out err stats : String) (elapsed : Rat)
    (expected : Option String) :
    (scoreCode limit (RunEvent.completed 137 out err stats elapsed)).error
      = some memoryLimitExceededLabel
  ∧ classifyResult (scoreCode limit (RunEvent.completed 137 out err stats elapsed)) expected
      = ScoringStatus.memoryLimitExceeded
  ∧ (err = "" →
      (scoreCode limit (RunEvent.completed 137 out err stats elapsed)).stderr = oomKilledMessage)
  ∧ (err ≠ "" →
      (scoreCode limit (RunEvent.completed 137 out err stats elapsed)).stderr = err) := by
  refine ⟨?_, classify_oom limit out err stats elapsed expected, ?_, ?_⟩
  · simp [scoreCode]
  · intro h
    simp [scoreCode, h]
  · intro h
    simp [scoreCode, h]

/-- Witness for C7: an OOM-killed run with silent stderr gets the
synthesized message, one with its own stderr keeps it. -/
theorem claim7_witness :
    (scoreCode 1 (RunEvent.completed 137 "" "" "" 1)).stderr = oomKilledMessage
  ∧ (scoreCode 1 (RunEvent.completed 137 "" "boom" "" 1)).stderr = "boom" := by
  constructor
  · exact (claim7_oom_classification 1 "" "" "" 1 none).2.2.1 rfl
  · exact (claim7_oom_classification 1 "" "boom" "" 1 none).2.2.2 (by decide)

/-- C9.  `score_code` returns on every path a record with exactly the six
keys `success`, `stdout`, `stderr`, `max_memory_kb`, `elapsed_time`,
`error` (this is the type of `scoreCode`, which is total over every
environment event, including timeouts, a missing docker binary and
arbitrary exceptions), and in every returned record `success` is true
exactly when `error` is `None`. -/
theorem claim9_success_iff_no_error (limit : Rat) (ev : RunEvent) :
    (scoreCode limit ev).success = true ↔ (scoreCode limit ev).error = none := by
  cases ev with
  | completed rc out err stats e =>
    by_cases h0 : rc = 0
    · simp [scoreCode, h0]
    · by_cases h137 : rc = 137
      · simp [scoreCode, h0, h137]
      · simp [scoreCode, h0, h137]
  | timedOut e => simp [scoreCode]
  | fileNotFound sock st e => cases sock <;> simp [scoreCode]
  | otherException m e => simp [scoreCode]

/-! ### Batch lemmas -/

lemma runBatch_ok (pairs : List (Testcase × RunEvent))
    (h : ∀ p ∈ pairs, p.1.id.isSome = true) :
    runBatch pairs = Except.ok (batchVerdicts pairs) := by
  induction pairs with
  | nil => rfl
  | cons p rest ih =>
    obtain ⟨tc, ev⟩ := p
    have hid : tc.id.isSome = true := h (tc, ev) (List.mem_cons_self _ _)
    obtain ⟨tid, htid⟩ := Option.isSome_iff_exists.mp hid
    have hrest : ∀ q ∈ rest, q.1.id.isSome = true := fun q hq => h q (List.mem_cons_of_mem _ hq)
    simp [runBatch, htid, ih hrest, batchVerdicts]

lemma classify_unrecognized_error (r : RunResult) (expected : Option String) (s : String)
    (hr : r.error = some s) (hs : s ≠ "") (hmap : scoringStatusOfString s = none) :
    classifyResult r expected = ScoringStatus.runtimeError := by
  simp [classifyResult, hr, errIsTruthy, hs, hmap]

lemma filter_ne_key_of_lookup_none (cache : PromptCache) (key : Nat × Nat)
    (h : List.lookup key cache = none) :
    List.filter (fun e => !(e.1 = key : Bool)) cache = cache := by
  induction cache with
  | nil => rfl
  | cons e rest ih =>
    obtain ⟨k, v⟩ := e
    by_cases hk : key = k
    · subst hk
      simp [List.lookup] at h
    · have hne : (key == k) = false := beq_eq_false_iff_ne.mpr hk
      rw [List.lookup, hne] at h
      have hkne : ¬ ((k, v).1 = key) := fun hh => hk hh.symm
      simp [List.filter, hkne, ih h]

/-- Counterexample for C1: a one-case batch whose execution hits the
missing-docker-binary fault.  The scoring endpoint does not fail the batch:
it completes with `Except.ok`, and the infrastructure fault is recorded in
the verdict sequence as a RuntimeError verdict. -/
theorem claim1_counterexample :
    isInfraFault (RunEvent.fileNotFound false none 0) = true
  ∧ (scoreEndpoint 1 2 "c" faultPairs [] []).toOption.map
        (fun eff => eff.results.map (fun r => r.status))
      = some [ScoringStatus.runtimeError] := by
  constructor
  · rfl
  · rfl

/-- C1 (amended).  An infrastructure fault (missing docker binary or an
unexpected exception) never propagates as a hard error: `score_code`
converts it into a result whose error string is not a recognised
`ScoringStatus` value, so the endpoint records a RuntimeError verdict for
that test case and still returns a full batch (the only hard error is a
test case missing its id). -/
theorem claim1_fault_becomes_runtime_error_verdict (pairs : List (Testcase × RunEvent))
    (h : ∀ p ∈ pairs, p.1.id.isSome = true) :
    runBatch pairs = Except.ok (batchVerdicts pairs)
  ∧ (∀ (tc : Testcase) (ev : RunEvent), isInfraFault ev = true →
      classifyResult (scoreCode tc.time_limit ev) tc.output = ScoringStatus.runtimeError) := by
  refine ⟨runBatch_ok pairs h, ?_⟩
  intro tc ev hev
  cases ev with
  | completed rc out err stats e => simp [isInfraFault] at hev
  | timedOut e => simp [isInfraFault] at hev
  | fileNotFound sock st e =>
    cases sock with
    | false =>
      refine classify_unrecognized_error _ _ dockerNotFoundMessage ?_ (by decide) (by rfl)
      simp [scoreCode]
    | true => simp [isInfraFault] at hev
  | otherException m e =>
    exact classify_unrecognized_error _ _ unexpectedErrorMessage rfl (by decide) rfl

/-- Witness for C1's amended theorem at a concrete faulting batch. -/
theorem claim1_witness :
    runBatch faultPairs = Except.ok (batchVerdicts faultPairs)
  ∧ classifyResult (scoreCode demoTcA.time_limit (RunEvent.otherException "boom" 1)) demoTcA.output
      = ScoringStatus.runtimeError := by
  have h := claim1_fault_becomes_runtime_error_verdict faultPairs (by decide)
  exact ⟨h.1, h.2 demoTcA (RunEvent.otherException "boom" 1) rfl⟩

/-- C5.  When every test case carries an id, the batch loop returns one
verdict per input test case, in input order: the verdict list is exactly
the map of the per-case computation over the input sequence, its length
equals the input length, and the i-th verdict is computed from the i-th
test case.  (Concurrent completion order is absorbed by `asyncio.gather`,
which returns results in task-creation order.) -/
theorem claim5_batch_preserves_order (pairs : List (Testcase × RunEvent))
    (h : ∀ p ∈ pairs, p.1.id.isSome = true) :
    runBatch pairs = Except.ok (batchVerdicts pairs)
  ∧ (batchVerdicts pairs).length = pairs.length
  ∧ ∀ (i : Nat) (hi : i < pairs.length) (hj : i < (batchVerdicts pairs).length),
      (batchVerdicts pairs).get ⟨i, hj⟩
        = mkScoringResult (pairs.get ⟨i, hi⟩).1 (pairs.get ⟨i, hi⟩).2 := by
  refine ⟨runBatch_ok pairs h, by simp [batchVerdicts], ?_⟩
  intro i hi hj
  simp [batchVerdicts]

/-- Witness for C5 on a concrete two-case batch. -/
theorem claim5_witness :
    runBatch demoPairs = Except.ok (batchVerdicts demoPairs)
  ∧ (batchVerdicts demoPairs).length = demoPairs.length
  ∧ (batchVerdicts demoPairs).get ⟨1, by decide⟩
      = mkScoringResult (demoPairs.get ⟨1, by decide⟩).1 (demoPairs.get ⟨1, by decide⟩).2 := by
  have h := claim5_batch_preserves_order demoPairs (by decide)
  exact ⟨h.1, h.2.1, h.2.2 1 (by decide) (by decide)⟩

/-- C8.  On a completed child process the peak memory is whatever the
leftmost match of the labelled line `Maximum resident set size (kbytes):`
yields; when no such line matches, `max_memory_kb` is `None` while the
launch still succeeds — the `success` and `error` fields do not depend on
the statistics text at all.  The two sample texts show a successful parse
and a parse-free text. -/
theorem claim8_peak_memory_parse (limit : Rat) (rc : Int) (out err stats stats2 : String)
    (elapsed : Rat) :
    (scoreCode limit (RunEvent.completed rc out err stats elapsed)).max_memory_kb
      = searchMaxRss stats
  ∧ (searchMaxRss stats = none →
      (scoreCode limit (RunEvent.completed rc out err stats elapsed)).max_memory_kb = none)
  ∧ (scoreCode limit (RunEvent.completed rc out err stats elapsed)).error
      = (scoreCode limit (RunEvent.completed rc out err stats2 elapsed)).error
  ∧ (scoreCode limit (RunEvent.completed rc out err stats elapsed)).success
      = (scoreCode limit (RunEvent.completed rc out err stats2 elapsed)).success
  ∧ searchMaxRss demoStatsText = some 1234
  ∧ searchMaxRss demoStatsNoLine = none := by
  have hmem : (scoreCode limit (RunEvent.completed rc out err stats elapsed)).max_memory_kb
      = searchMaxRss stats := by
    by_cases h0 : rc = 0
    · simp [scoreCode, h0]
    · by_cases h137 : rc = 137
      · simp [scoreCode, h0, h137]
      · simp [scoreCode, h0, h137]
  have herr : (scoreCode limit (RunEvent.completed rc out err stats elapsed)).error
      = (scoreCode limit (RunEvent.completed rc out err stats2 elapsed)).error := by
    by_cases h0 : rc = 0
    · simp [scoreCode, h0]
    · by_cases h137 : rc = 137
      · simp [scoreCode, h0, h137]
      · simp [scoreCode, h0, h137]
  have hsucc : (scoreCode limit (RunEvent.completed rc out err stats elapsed)).success
      = (scoreCode limit (RunEvent.completed rc out err stats2 elapsed)).success := by
    by_cases h0 : rc = 0
    · simp [scoreCode, h0]
    · by_cases h137 : rc = 137
      · simp [scoreCode, h0, h137]
      · simp [scoreCode, h0, h137]
  refine ⟨hmem, ?_, herr, hsucc, by rfl, by rfl⟩
  intro hnone
  rw [hmem, hnone]

/-- Witness for C8: the sample text without the labelled line parses to no
peak memory, the one with it parses to 1234 kB. -/
theorem claim8_witness :
    (scoreCode 1 (RunEvent.completed 0 "" "" demoStatsNoLine 1)).max_memory_kb = none
  ∧ (scoreCode 1 (RunEvent.completed 0 "" "" demoStatsText 1)).max_memory_kb = some 1234 := by
  have ha := claim8_peak_memory_parse 1 0 "" "" demoStatsNoLine demoStatsText 1
  have hb := claim8_peak_memory_parse 1 0 "" "" demoStatsText demoStatsNoLine 1
  refine ⟨ha.2.1 (by rfl), ?_⟩
  rw [hb.1]
  rfl

/-- C10.  Every completed scoring call appends exactly one `(Share,
PSShare)` pair to the shares table, with `is_public` and `is_correct` both
equal to `all_accepted` and the submitted code stored on the `PSShare`;
the cached prompt of the `(user, challenge)` key is popped from the global
prompt cache and stored on the `Share` only when every verdict is
Accepted, and otherwise the stored prompt is `None` and the cache is left
unchanged. -/
theorem claim10_share_and_cache_effects (userId challengeId : Nat) (code : String)
    (pairs : List (Testcase × RunEvent)) (cache : PromptCache)
    (shares : List (ShareRec × PSShareRec)) (eff : ScoreEffects)
    (h : scoreEndpoint userId challengeId code pairs cache shares = Except.ok eff) :
    eff.shares = shares ++
      [({ challenge_id := challengeId, user_id := userId,
          is_public := allAccepted eff.results,
          prompt := if allAccepted eff.results = true
            then List.lookup (userId, challengeId) cache else none },
        { code := code, is_correct := allAccepted eff.results })]
  ∧ (allAccepted eff.results = true →
      eff.cache = List.filter (fun e => !(e.1 = (userId, challengeId) : Bool)) cache)
  ∧ (allAccepted eff.results = false → eff.cache = cache) := by
  unfold scoreEndpoint at h
  cases hrb : runBatch pairs with
  | error e => rw [hrb] at h; cases h
  | ok results =>
    rw [hrb] at h
    simp only [Except.ok.injEq] at h
    subst h
    by_cases hacc : allAccepted results = true
    · simp only [hacc, if_true]
      cases hlk : List.lookup (userId, challengeId) cache with
      | some v =>
        refine ⟨?_, fun _ => ?_, fun hfalse => ?_⟩
        · simp [cachePop, hlk, hacc]
        · simp [cachePop, hlk]
        · exact absurd hfalse (by decide)
      | none =>
        refine ⟨?_, fun _ => ?_, fun hfalse => ?_⟩
        · simp [cachePop, hlk, hacc]
        · simp [cachePop, hlk, filter_ne_key_of_lookup_none cache _ hlk]
        · exact absurd hfalse (by decide)
    · have hacc2 : allAccepted results = false := by
        cases hb : allAccepted results
        · rfl
        · exact absurd hb hacc
      refine ⟨?_, fun htrue => ?_, fun _ => ?_⟩
      · simp [hacc2]
      · exact absurd htrue hacc
      · simp [hacc2]

/-- Witness for C10: an empty batch (vacuously all accepted) for user 1 on
challenge 2 stores the cached prompt on the single created share and
empties the cache. -/
theorem claim10_witness :
    demoEffects.shares = [] ++
      [({ challenge_id := 2, user_id := 1,
          is_public := allAccepted demoEffects.results,
          prompt := if allAccepted demoEffects.results = true
            then List.lookup (1, 2) demoCache else none },
        { code := "c", is_correct := allAccepted demoEffects.results })]
  ∧ demoEffects.cache = List.filter (fun e => !(e.1 = ((1 : Nat), (2 : Nat)) : Bool)) demoCache := by
  have h := claim10_share_and_cache_effects 1 2 "c" [] demoCache [] demoEffects (by rfl)
  exact ⟨h.1, h.2.1 (by rfl)⟩
